import Mathlib

/-
Shallow embedding of src/vs/workbench/browser/parts/editor/noTabsTitleControl.ts
(the NoTabsTitleControl class). External collaborators (group service, stacks,
label widget, toolbar, DOM ancestry, theming) are modelled as fields of the
controller state or as abstract request/effect constructors, exactly at the
granularity at which the source calls them.
-/

namespace NoTabsTitle

/-- Verbosity enum from vs/platform/editor/common/editor. -/
inductive Verbosity
  | SHORT
  | MEDIUM
  | LONG
deriving DecidableEq

/-- A document (EditorInput) as queried by the controller: getName, getDescription,
getTitle, isDirty, and the resource obtained via toResource. getName and
getDescription may return null in the source, hence Option. -/
structure EditorInput where
  name : Option String
  description : Verbosity → Option String
  title : Verbosity → String
  dirty : Bool
  resource : Option Nat

/-- An editor group as queried by the controller: identity, activeEditor, and
the result of group.isPinned(group.activeEditor). -/
structure EditorGroup where
  id : Nat
  activeEditor : Option EditorInput
  activePinned : Bool

/-- The observable state the controller reads: the bound context (may be null),
this.stacks.groups.length, this.stacks.isActive, the configured tab label
format, the toolbar root element, and the DOM ancestry relation used by
DOM.isAncestor (an external collaborator; a null test child is never an
ancestor descendant, which the relation receives as an Option argument). -/
structure ControlState where
  context : Option EditorGroup
  groupsLength : Nat
  isActiveGroup : Nat → Bool
  labelFormat : String
  toolbarRoot : Nat
  domIsAncestor : Option Nat → Nat → Bool

/-- Input events reaching onTitleClick: a MouseEvent with its button, target and
srcElement, or a GestureEvent (touch tap) with initialTarget, target and
srcElement. -/
inductive InputEvent
  | mouse (button : Nat) (target : Option Nat) (srcElement : Option Nat)
  | tap (initialTarget : Option Nat) (target : Option Nat) (srcElement : Option Nat)

/-- The instanceof MouseEvent test from line 89 and line 97. -/
def isMouseEvent : InputEvent → Bool
  | InputEvent.mouse _ _ _ => true
  | InputEvent.tap _ _ _ => false

/-- The test e instanceof MouseEvent and e.button === 1 from line 89. -/
def isMiddleMouseClick : InputEvent → Bool
  | InputEvent.mouse b _ _ => b == 1
  | InputEvent.tap _ _ _ => false

/-- The expression (e as GestureEvent).initialTarget or e.target or e.srcElement
from line 97; a MouseEvent carries no initialTarget. -/
def originalTarget : InputEvent → Option Nat
  | InputEvent.mouse _ t s => t.orElse fun _ => s
  | InputEvent.tap it t s => it.orElse fun _ => t.orElse fun _ => s

/-- The rejection handler attached to the close deferred at line 90:
done(null, errors.onUnexpectedError). -/
inductive RejectionHandler
  | onUnexpectedError

/-- Workbench-level requests the dispatch handlers issue to collaborators. -/
inductive Request
  | focusGroup (groupId : Nat)
  | pinEditor (groupId : Nat) (editor : Option EditorInput)
  | closeEditor (groupId : Nat) (editor : Option EditorInput) (onReject : RejectionHandler)
  | openContextMenu (groupId : Nat) (editor : Option EditorInput)

/-- Outcome of the asynchronous close action (closeEditorAction.run). -/
inductive DeferredResult
  | resolved
  | rejected (err : Nat)

/-- A report sent to the process-wide unexpected-error sink. -/
inductive ErrorReport
  | onUnexpectedError (err : Nat)

/-- The completion wiring of line 90: done(null, errors.onUnexpectedError)
forwards a rejection to the global error reporter and propagates nothing. -/
def closeDeferredCompletion : DeferredResult → List ErrorReport
  | DeferredResult.resolved => []
  | DeferredResult.rejected err => [ErrorReport.onUnexpectedError err]

/-- A JavaScript runtime error raised by a handler. -/
inductive JsError
  | typeErrorNullDeref

/-- onTitleClick (lines 81 to 100): guard on null context; close on middle
mouse click; otherwise focus the group when (groups.length === 1 or the event
is not a MouseEvent) and the original target is not a descendant of the
toolbar container element. -/
def onTitleClick (s : ControlState) (e : InputEvent) : List Request :=
  match s.context with
  | none => []
  | some group =>
    if isMiddleMouseClick e then
      [Request.closeEditor group.id group.activeEditor RejectionHandler.onUnexpectedError]
    else if (s.groupsLength == 1 || !isMouseEvent e)
        && !s.domIsAncestor (originalTarget e) s.toolbarRoot then
      [Request.focusGroup group.id]
    else []

/-- onTitleDoubleClick (lines 70 to 79): guard on null context, then pin the
active editor of the bound group. -/
def onTitleDoubleClick (s : ControlState) : List Request :=
  match s.context with
  | none => []
  | some group => [Request.pinEditor group.id group.activeEditor]

/-- The CONTEXT_MENU listener installed in create (lines 59 and 60): it builds
the anchor object by evaluating this.context.activeEditor with no null guard,
so with a null context the property access raises a TypeError before any
dispatch happens. -/
def onContextMenuDispatch (s : ControlState) : Except JsError Request :=
  match s.context with
  | none => Except.error JsError.typeErrorNullDeref
  | some group => Except.ok (Request.openContextMenu group.id group.activeEditor)

/-- getVerbosity (lines 157 to 163). -/
def getVerbosity (style : String) : Verbosity :=
  match style with
  | "short" => Verbosity.SHORT
  | "long" => Verbosity.LONG
  | _ => Verbosity.MEDIUM

/-- The description computed in doRefresh (lines 133 to 139): forced empty when
the label format is default and the group is not active, else
editor.getDescription at the derived verbosity with empty substituted for a
null or empty result. -/
def refreshDescription (s : ControlState) (group : EditorGroup) (editor : EditorInput) : String :=
  if s.labelFormat == "default" && !s.isActiveGroup group.id then ""
  else (editor.description (getVerbosity s.labelFormat)).getD ""

/-- The tooltip title computed in doRefresh (lines 141 to 144): getTitle at
LONG verbosity, blanked when it equals the computed description. -/
def refreshTitle (s : ControlState) (group : EditorGroup) (editor : EditorInput) : String :=
  if refreshDescription s group editor = editor.title Verbosity.LONG then ""
  else editor.title Verbosity.LONG

/-- The two theme color tokens used at lines 148 and 150. -/
inductive ColorId
  | tabActiveForeground
  | tabUnfocusedActiveForeground

/-- The content record passed to editorLabel.setLabel at line 146. -/
structure LabelContent where
  name : String
  description : String
  resource : Option Nat

/-- The options record passed to editorLabel.setLabel at line 146. -/
structure LabelOptions where
  title : String
  italic : Bool
  extraClasses : List String

/-- One presentation update performed by doRefresh on its collaborators. -/
inductive Effect
  | clearLabel
  | clearToolbar
  | setClassActive (present : Bool)
  | setClassDirty (present : Bool)
  | setLabel (content : LabelContent) (opts : LabelOptions)
  | setColor (c : ColorId)
  | updateToolbar

/-- doRefresh (lines 102 to 155) as the ordered trace of presentation updates
it performs: clear label and toolbar when there is no active editor, else set
the active and dirty classes, push the label, set the foreground color, and
update the toolbar. -/
def doRefresh (s : ControlState) : List Effect :=
  match s.context with
  | none => [Effect.clearLabel, Effect.clearToolbar]
  | some group =>
    match group.activeEditor with
    | none => [Effect.clearLabel, Effect.clearToolbar]
    | some editor =>
      let isActive := s.isActiveGroup group.id
      [Effect.setClassActive isActive,
        Effect.setClassDirty editor.dirty,
        Effect.setLabel
          { name := editor.name.getD "",
            description := refreshDescription s group editor,
            resource := editor.resource }
          { title := refreshTitle s group editor,
            italic := !group.activePinned,
            extraClasses := ["title-label"] },
        Effect.setColor (if isActive then ColorId.tabActiveForeground
          else ColorId.tabUnfocusedActiveForeground),
        Effect.updateToolbar]

/-- The toolbar is either cleared (clearEditorActionsToolbar) or updated
(updateEditorActionsToolbar). -/
inductive ToolbarView
  | cleared
  | updated

/-- The visible presentation state the effects act on. -/
structure Presentation where
  label : Option (LabelContent × LabelOptions)
  activeClass : Bool
  dirtyClass : Bool
  color : Option ColorId
  toolbar : ToolbarView

/-- Interpretation of one presentation effect. -/
def applyEffect (p : Presentation) : Effect → Presentation
  | Effect.clearLabel => { p with label := none }
  | Effect.clearToolbar => { p with toolbar := ToolbarView.cleared }
  | Effect.setClassActive b => { p with activeClass := b }
  | Effect.setClassDirty b => { p with dirtyClass := b }
  | Effect.setLabel c o => { p with label := some (c, o) }
  | Effect.setColor c => { p with color := some c }
  | Effect.updateToolbar => { p with toolbar := ToolbarView.updated }

/-- Interpretation of a trace of presentation effects, in order. -/
def applyEffects (p : Presentation) (es : List Effect) : Presentation :=
  es.foldl applyEffect p

/-- A blank presentation. -/
def emptyPresentation : Presentation :=
  { label := none, activeClass := false, dirtyClass := false,
    color := none, toolbar := ToolbarView.cleared }

/-- The label pushed by one refresh, read off the effect trace. -/
def pushedLabel (s : ControlState) : Option (LabelContent × LabelOptions) :=
  (applyEffects emptyPresentation (doRefresh s)).label

/-- The name field pushed to the label widget by one refresh. -/
def labelName (s : ControlState) : Option String :=
  (pushedLabel s).map fun lc => lc.1.name

/-- The description field pushed to the label widget by one refresh. -/
def labelDescription (s : ControlState) : Option String :=
  (pushedLabel s).map fun lc => lc.1.description

/-- The tooltip title pushed to the label widget by one refresh. -/
def labelTitle (s : ControlState) : Option String :=
  (pushedLabel s).map fun lc => lc.2.title

/-- A sample document with a name, a description and a distinct title. -/
def edSample : EditorInput :=
  { name := some "a.txt", description := fun _ => some "dir",
    title := fun _ => "ttl", dirty := false, resource := some 7 }

/-- A sample document whose name and description queries return null. -/
def edBlank : EditorInput :=
  { name := none, description := fun _ => none,
    title := fun _ => "ttl", dirty := false, resource := none }

/-- A sample document whose long title equals its description. -/
def edDup : EditorInput :=
  { name := some "b.txt", description := fun _ => some "ttl",
    title := fun _ => "ttl", dirty := true, resource := some 8 }

/-- A sample group holding edSample. -/
def grpSample : EditorGroup :=
  { id := 0, activeEditor := some edSample, activePinned := true }

/-- A sample group holding edBlank. -/
def grpBlank : EditorGroup :=
  { id := 1, activeEditor := some edBlank, activePinned := false }

/-- A sample group holding edDup. -/
def grpDup : EditorGroup :=
  { id := 2, activeEditor := some edDup, activePinned := false }

/-- A sample group with no active editor. -/
def grpEmpty : EditorGroup :=
  { id := 3, activeEditor := none, activePinned := false }

/-- A bound, active, single-group state with the long label format. -/
def stSample : ControlState :=
  { context := some grpSample, groupsLength := 1, isActiveGroup := fun _ => true,
    labelFormat := "long", toolbarRoot := 100, domIsAncestor := fun _ _ => false }

/-- A bound state whose group is not active, with the default label format. -/
def stInactiveDefault : ControlState :=
  { context := some grpSample, groupsLength := 2, isActiveGroup := fun _ => false,
    labelFormat := "default", toolbarRoot := 100, domIsAncestor := fun _ _ => false }

/-- A bound state holding the blank document. -/
def stBlank : ControlState :=
  { context := some grpBlank, groupsLength := 1, isActiveGroup := fun _ => true,
    labelFormat := "short", toolbarRoot := 100, domIsAncestor := fun _ _ => false }

/-- A bound state holding the duplicate-title document. -/
def stDup : ControlState :=
  { context := some grpDup, groupsLength := 1, isActiveGroup := fun _ => true,
    labelFormat := "short", toolbarRoot := 100, domIsAncestor := fun _ _ => false }

/-- A bound state whose group has no active editor. -/
def stEmpty : ControlState :=
  { context := some grpEmpty, groupsLength := 1, isActiveGroup := fun _ => true,
    labelFormat := "default", toolbarRoot := 100, domIsAncestor := fun _ _ => false }

/-- A state with no bound context. -/
def stUnbound : ControlState :=
  { context := none, groupsLength := 1, isActiveGroup := fun _ => false,
    labelFormat := "default", toolbarRoot := 100, domIsAncestor := fun _ _ => false }

/-- With a bound group and an active editor, the label pushed by doRefresh is
the record built at line 146 of the source. -/
theorem pushedLabel_eq (s : ControlState) (g : EditorGroup) (editor : EditorInput)
    (hctx : s.context = some g) (hed : g.activeEditor = some editor) :
    pushedLabel s = some
      ({ name := editor.name.getD "", description := refreshDescription s g editor,
         resource := editor.resource },
       { title := refreshTitle s g editor, italic := !g.activePinned,
         extraClasses := ["title-label"] }) := by
  simp [pushedLabel, doRefresh, hctx, hed, applyEffects, applyEffect, emptyPresentation]

/-- C1: for every click dispatched with a bound context that is not a
middle-button mouse click, a focus-group request for the bound group is issued
if and only if (the workbench has exactly one group or the event is not a
mouse event) and the original target of the event is not a descendant of the
toolbar root element. -/
theorem onTitleClick_focus_iff (s : ControlState) (e : InputEvent) (g : EditorGroup)
    (hctx : s.context = some g) (hmid : isMiddleMouseClick e = false) :
    Request.focusGroup g.id ∈ onTitleClick s e ↔
      ((s.groupsLength = 1 ∨ isMouseEvent e = false) ∧
        s.domIsAncestor (originalTarget e) s.toolbarRoot = false) := by
  simp only [onTitleClick, hctx, hmid, Bool.false_eq_true, if_false]
  by_cases hc : ((s.groupsLength == 1 || !isMouseEvent e)
      && !s.domIsAncestor (originalTarget e) s.toolbarRoot) = true
  · rw [if_pos hc]
    simp only [Bool.and_eq_true, Bool.or_eq_true, beq_iff_eq, Bool.not_eq_true'] at hc
    simp [hc]
  · rw [if_neg hc]
    simp only [List.not_mem_nil, false_iff]
    intro h
    apply hc
    simp only [Bool.and_eq_true, Bool.or_eq_true, beq_iff_eq, Bool.not_eq_true']
    exact ⟨h.1, h.2⟩

/-- C1 witness: a touch tap outside the toolbar on a bound single-group state. -/
theorem onTitleClick_focus_iff_witness :
    Request.focusGroup grpSample.id ∈ onTitleClick stSample (InputEvent.tap none (some 5) none) ↔
      ((stSample.groupsLength = 1 ∨ isMouseEvent (InputEvent.tap none (some 5) none) = false) ∧
        stSample.domIsAncestor (originalTarget (InputEvent.tap none (some 5) none))
          stSample.toolbarRoot = false) :=
  onTitleClick_focus_iff stSample (InputEvent.tap none (some 5) none) grpSample rfl rfl

/-- C2, failing evaluation: with an unset context, the CONTEXT_MENU listener of
create dereferences this.context.activeEditor and raises a TypeError instead
of treating the null context as nothing to show. -/
theorem onContextMenuDispatch_null_throws :
    onContextMenuDispatch stUnbound = Except.error JsError.typeErrorNullDeref := rfl

/-- C3: whenever the context is unset or the bound group has no active editor,
doRefresh clears the label widget, clears the toolbar, and performs no other
presentation update. -/
theorem doRefresh_clears_without_editor (s : ControlState)
    (h : s.context = none ∨ ∃ g, s.context = some g ∧ g.activeEditor = none) :
    doRefresh s = [Effect.clearLabel, Effect.clearToolbar] := by
  rcases h with h | ⟨g, hg, he⟩
  · simp [doRefresh, h]
  · simp [doRefresh, hg, he]

/-- C3 witness: the unbound state, and a bound group with no active editor. -/
theorem doRefresh_clears_without_editor_witness :
    doRefresh stUnbound = [Effect.clearLabel, Effect.clearToolbar] ∧
      doRefresh stEmpty = [Effect.clearLabel, Effect.clearToolbar] :=
  ⟨doRefresh_clears_without_editor stUnbound (Or.inl rfl),
    doRefresh_clears_without_editor stEmpty (Or.inr ⟨grpEmpty, rfl, rfl⟩)⟩

/-- C4: with an active editor, the description pushed to the label widget is
empty whenever the label format is default and the group is not active,
regardless of getDescription; otherwise it is whatever getDescription returns
at the verbosity derived from the label format. -/
theorem refresh_description_rule (s : ControlState) (g : EditorGroup) (editor : EditorInput)
    (hctx : s.context = some g) (hed : g.activeEditor = some editor) :
    (s.labelFormat = "default" → s.isActiveGroup g.id = false →
        labelDescription s = some "")
    ∧ (¬(s.labelFormat = "default" ∧ s.isActiveGroup g.id = false) →
        ∀ d, editor.description (getVerbosity s.labelFormat) = some d →
          labelDescription s = some d) := by
  have hlab := pushedLabel_eq s g editor hctx hed
  constructor
  · intro hf ha
    simp [labelDescription, hlab, refreshDescription, hf, ha]
  · intro hno d hd
    have hcond : (s.labelFormat == "default" && !s.isActiveGroup g.id) = false := by
      by_cases h2 : s.labelFormat = "default"
      · rcases Bool.eq_false_or_eq_true (s.isActiveGroup g.id) with h1 | h1
        · simp [h1]
        · exact absurd ⟨h2, h1⟩ hno
      · simp [h2]
    simp [labelDescription, hlab, refreshDescription, hcond, hd]

/-- C4 witness: suppression on an inactive group with default format, and the
plain getDescription result on an active group with long format. -/
theorem refresh_description_rule_witness :
    labelDescription stInactiveDefault = some "" ∧ labelDescription stSample = some "dir" :=
  ⟨(refresh_description_rule stInactiveDefault grpSample edSample rfl rfl).1 rfl rfl,
    (refresh_description_rule stSample grpSample edSample rfl rfl).2 (by decide) "dir" rfl⟩

/-- C5: with an active editor, the tooltip title pushed to the label widget is
the long-verbosity title of the document, except that it is the empty string
when that title equals the computed description. -/
theorem refresh_title_rule (s : ControlState) (g : EditorGroup) (editor : EditorInput)
    (hctx : s.context = some g) (hed : g.activeEditor = some editor) :
    (refreshDescription s g editor = editor.title Verbosity.LONG →
        labelTitle s = some "")
    ∧ (refreshDescription s g editor ≠ editor.title Verbosity.LONG →
        labelTitle s = some (editor.title Verbosity.LONG)) := by
  have hlab := pushedLabel_eq s g editor hctx hed
  constructor
  · intro h
    simp [labelTitle, hlab, refreshTitle, h]
  · intro h
    simp [labelTitle, hlab, refreshTitle, h]

/-- C5 witness: a document whose description equals its long title gets an
empty tooltip, one with a distinct description keeps its long title. -/
theorem refresh_title_rule_witness :
    labelTitle stDup = some "" ∧ labelTitle stSample = some "ttl" :=
  ⟨(refresh_title_rule stDup grpDup edDup rfl rfl).1 rfl,
    (refresh_title_rule stSample grpSample edSample rfl rfl).2 (by decide)⟩

/-- C6: getVerbosity maps short to SHORT, long to LONG, and every other string
to MEDIUM. -/
theorem getVerbosity_total_map :
    getVerbosity "short" = Verbosity.SHORT ∧ getVerbosity "long" = Verbosity.LONG
    ∧ ∀ style, style ≠ "short" → style ≠ "long" → getVerbosity style = Verbosity.MEDIUM := by
  refine ⟨rfl, rfl, ?_⟩
  intro style h1 h2
  unfold getVerbosity
  split <;> simp_all

/-- C6 witness: the two named formats and one unknown format. -/
theorem getVerbosity_total_map_witness :
    getVerbosity "short" = Verbosity.SHORT ∧ getVerbosity "long" = Verbosity.LONG
    ∧ getVerbosity "default" = Verbosity.MEDIUM :=
  ⟨getVerbosity_total_map.1, getVerbosity_total_map.2.1,
    getVerbosity_total_map.2.2 "default" (by decide) (by decide)⟩

/-- C7: a double click with a bound context issues exactly one pin request for
the bound group and its active editor; with no context it issues none. -/
theorem onTitleDoubleClick_pin (s : ControlState) :
    (∀ g, s.context = some g →
        onTitleDoubleClick s = [Request.pinEditor g.id g.activeEditor])
    ∧ (s.context = none → onTitleDoubleClick s = []) := by
  constructor
  · intro g hg
    simp [onTitleDoubleClick, hg]
  · intro h
    simp [onTitleDoubleClick, h]

/-- C7 witness: the sample bound state and the unbound state. -/
theorem onTitleDoubleClick_pin_witness :
    onTitleDoubleClick stSample = [Request.pinEditor grpSample.id grpSample.activeEditor]
    ∧ onTitleDoubleClick stUnbound = [] :=
  ⟨(onTitleDoubleClick_pin stSample).1 grpSample rfl,
    (onTitleDoubleClick_pin stUnbound).2 rfl⟩

/-- C8: a middle-button mouse click with a bound context issues exactly one
close request carrying the unexpected-error rejection handler, issues no focus
request, and a rejection of the close deferred is forwarded to the global
unexpected-error reporter rather than propagated. -/
theorem onTitleClick_middle_close (s : ControlState) (g : EditorGroup)
    (t se : Option Nat) (hctx : s.context = some g) :
    onTitleClick s (InputEvent.mouse 1 t se)
        = [Request.closeEditor g.id g.activeEditor RejectionHandler.onUnexpectedError]
    ∧ (∀ gid, Request.focusGroup gid ∉ onTitleClick s (InputEvent.mouse 1 t se))
    ∧ ∀ err, closeDeferredCompletion (DeferredResult.rejected err)
        = [ErrorReport.onUnexpectedError err] := by
  refine ⟨?_, ?_, fun err => rfl⟩
  · simp [onTitleClick, hctx, isMiddleMouseClick]
  · intro gid
    simp [onTitleClick, hctx, isMiddleMouseClick]

/-- C8 witness: a middle click on the sample bound state. -/
theorem onTitleClick_middle_close_witness :
    onTitleClick stSample (InputEvent.mouse 1 none none)
        = [Request.closeEditor grpSample.id grpSample.activeEditor
            RejectionHandler.onUnexpectedError]
    ∧ Request.focusGroup grpSample.id ∉ onTitleClick stSample (InputEvent.mouse 1 none none)
    ∧ closeDeferredCompletion (DeferredResult.rejected 5)
        = [ErrorReport.onUnexpectedError 5] :=
  ⟨(onTitleClick_middle_close stSample grpSample none none rfl).1,
    (onTitleClick_middle_close stSample grpSample none none rfl).2.1 grpSample.id,
    (onTitleClick_middle_close stSample grpSample none none rfl).2.2 5⟩

/-- C9: doRefresh is idempotent: applying its effect trace twice to any
presentation yields the same presentation as applying it once. -/
theorem doRefresh_idempotent (s : ControlState) (p : Presentation) :
    applyEffects (applyEffects p (doRefresh s)) (doRefresh s)
      = applyEffects p (doRefresh s) := by
  cases hc : s.context with
  | none => simp [doRefresh, hc, applyEffects, applyEffect]
  | some g =>
    cases he : g.activeEditor with
    | none => simp [doRefresh, hc, he, applyEffects, applyEffect]
    | some ed => simp [doRefresh, hc, he, applyEffects, applyEffect]

/-- C10: with an active editor, a null getName pushes the empty string as the
label name and a null getDescription pushes the empty string as the label
description, so the widget always receives strings. -/
theorem label_fields_never_null (s : ControlState) (g : EditorGroup) (editor : EditorInput)
    (hctx : s.context = some g) (hed : g.activeEditor = some editor) :
    (editor.name = none → labelName s = some "")
    ∧ (editor.description (getVerbosity s.labelFormat) = none →
        labelDescription s = some "") := by
  have hlab := pushedLabel_eq s g editor hctx hed
  constructor
  · intro h
    simp [labelName, hlab, h]
  · intro h
    simp [labelDescription, hlab, refreshDescription, h]

/-- C10 witness: the blank document state. -/
theorem label_fields_never_null_witness :
    labelName stBlank = some "" ∧ labelDescription stBlank = some "" :=
  ⟨(label_fields_never_null stBlank grpBlank edBlank rfl rfl).1 rfl,
    (label_fields_never_null stBlank grpBlank edBlank rfl rfl).2 rfl⟩

end NoTabsTitle
